import Mathlib

/-!
Verification of the conversation-routing + retrieval pipeline of the
calo-ai-app backend (`backend/app/services/agent_service.py`,
`llm_service.py`, `rag_service.py`, `prompts/agent_prompts.py`).

Strings are modelled as `List Char`.  The completion backend and the
Chroma vector index are external collaborators and are modelled as
oracles: the completion backend as a stream of `Except LlmErr Str`
answers indexed by call count (also receiving the prompt), the index as
a pure query function.  Python floats such as the fixed confidence
values are modelled as rationals.
-/

namespace Calo

/-- Python strings are modelled as lists of characters. -/
abbrev Str := List Char

/-- Model of Python `str.lower` (ASCII). -/
def lowerStr (s : Str) : Str := s.map Char.toLower

/-- Model of Python `str.upper` (ASCII). -/
def upperStr (s : Str) : Str := s.map Char.toUpper

/-- Model of Python `str.strip()`: drop whitespace from both ends. -/
def pyStrip (s : Str) : Str :=
  (((s.dropWhile Char.isWhitespace).reverse).dropWhile Char.isWhitespace).reverse

/-- Model of the Python substring test `pat in hay`. -/
def pyIn (pat hay : Str) : Bool := decide (pat <:+: hay)

/-- Errors `generate_completion` can raise: `RuntimeError` when the
health probe fails (`ServiceUnavailable`), `HTTPStatusError` from
`raise_for_status` (`UpstreamError`). -/
inductive LlmErr where
  | serviceUnavailable
  | upstreamError
deriving DecidableEq, Repr

/-- Agent-name classification of a raw routing completion, lines 59-70
of `agent_service.py`: strip, uppercase, then substring checks in
priority order with `PREFERENCE_LEARNER` as the default. -/
def routeClassify (response : Str) : Str :=
  let r := upperStr (pyStrip response)
  if pyIn (("PREFERENCE").data) r then ("PREFERENCE_LEARNER").data
  else if pyIn (("MEAL").data) r || pyIn (("RECOMMEND").data) r then
    ("MEAL_RECOMMENDER").data
  else if pyIn (("FEEDBACK").data) r then ("FEEDBACK_ANALYZER").data
  else if pyIn (("KITCHEN").data) r then ("KITCHEN_ROUTER").data
  else ("PREFERENCE_LEARNER").data

/-- Outcome of `route_conversation` as a function of the completion
call's outcome (the `try`/`except` of lines 51-73: any exception yields
`PREFERENCE_LEARNER`). -/
def routeDecision (res : Except LlmErr Str) : Str :=
  match res with
  | .ok r => routeClassify r
  | .error _ => ("PREFERENCE_LEARNER").data

/-- Spec-side: case-insensitive substring occurrence (both sides
uppercased). -/
def ciOccurs (tok s : Str) : Bool := pyIn (upperStr tok) (upperStr s)

/-- Spec-side routing decision, from the spec's words: case-insensitive
substring match against PREFERENCE, MEAL/RECOMMEND, FEEDBACK, KITCHEN in
that priority order, first match wins; on no match or a failed
completion call, `PREFERENCE_LEARNER`. -/
def specRouteDecision (res : Except LlmErr Str) : Str :=
  match res with
  | .error _ => ("PREFERENCE_LEARNER").data
  | .ok s =>
    if ciOccurs (("PREFERENCE").data) s then ("PREFERENCE_LEARNER").data
    else if ciOccurs (("MEAL").data) s || ciOccurs (("RECOMMEND").data) s then
      ("MEAL_RECOMMENDER").data
    else if ciOccurs (("FEEDBACK").data) s then ("FEEDBACK_ANALYZER").data
    else if ciOccurs (("KITCHEN").data) s then ("KITCHEN_ROUTER").data
    else ("PREFERENCE_LEARNER").data

/-- Uppercasing a whitespace character is the identity. -/
theorem toUpper_of_isWhitespace {c : Char} (h : c.isWhitespace = true) :
    c.toUpper = c := by
  simp only [Char.isWhitespace, Bool.or_eq_true, decide_eq_true_eq] at h
  rcases h with ((rfl | rfl) | rfl) | rfl <;> decide

/-- Mapping a function that fixes every element of a list is the
identity on that list. -/
theorem map_id_of_fixes {l : List Char} {f : Char → Char}
    (h : ∀ c ∈ l, f c = c) : l.map f = l := by
  induction l with
  | nil => rfl
  | cons c l ih =>
    rw [List.map_cons, h c (List.mem_cons_self c l),
      ih fun x hx => h x (List.mem_cons_of_mem c hx)]

/-- A `pyStrip`-ped string sits inside the original between two
all-whitespace pieces. -/
theorem pyStrip_decomp (s : Str) :
    ∃ a b : Str, s = a ++ pyStrip s ++ b ∧
      (∀ c ∈ a, c.isWhitespace = true) ∧ (∀ c ∈ b, c.isWhitespace = true) := by
  refine ⟨s.takeWhile Char.isWhitespace,
    ((s.dropWhile Char.isWhitespace).reverse.takeWhile Char.isWhitespace).reverse,
    ?_, ?_, ?_⟩
  · conv_lhs => rw [← List.takeWhile_append_dropWhile Char.isWhitespace s]
    rw [List.append_assoc]
    congr 1
    conv_lhs =>
      rw [← List.reverse_reverse (s.dropWhile Char.isWhitespace),
        ← List.takeWhile_append_dropWhile Char.isWhitespace
          (s.dropWhile Char.isWhitespace).reverse]
    rw [List.reverse_append, pyStrip]
  · exact fun c hc => List.mem_takeWhile_imp hc
  · intro c hc
    rw [List.mem_reverse] at hc
    exact List.mem_takeWhile_imp hc

/-- A nonempty all-non-whitespace pattern occurs in `c :: u` with `c`
whitespace iff it occurs in `u`. -/
theorem infix_ws_cons {t : Str} {c : Char} {u : Str} (hne : t ≠ [])
    (ht : ∀ x ∈ t, ¬ x.isWhitespace = true) (hc : c.isWhitespace = true) :
    t <:+: c :: u ↔ t <:+: u := by
  constructor
  · intro h
    rcases List.infix_cons_iff.mp h with hp | hi
    · cases t with
      | nil => exact absurd rfl hne
      | cons x t' =>
        rcases hp with ⟨r, hr⟩
        injection hr with hx _
        exact absurd hc (hx ▸ ht x (List.mem_cons_self x t'))
    · exact hi
  · exact List.infix_cons

/-- Prepending an all-whitespace list does not affect occurrence of a
nonempty all-non-whitespace pattern. -/
theorem infix_ws_prepend {t : Str} (a : Str) {u : Str} (hne : t ≠ [])
    (ht : ∀ x ∈ t, ¬ x.isWhitespace = true)
    (ha : ∀ c ∈ a, c.isWhitespace = true) :
    t <:+: a ++ u ↔ t <:+: u := by
  induction a with
  | nil => simp
  | cons c a ih =>
    rw [List.cons_append,
      infix_ws_cons hne ht (ha c (List.mem_cons_self c a)),
      ih (fun x hx => ha x (List.mem_cons_of_mem c hx))]

/-- Occurrence transfers along `reverse` on both sides. -/
theorem infix_reverse_iff (l₁ l₂ : Str) :
    l₁.reverse <:+: l₂.reverse ↔ l₁ <:+: l₂ := List.reverse_infix

/-- Occurrence of a nonempty all-non-whitespace pattern in
`a ++ m ++ b` with `a`, `b` all-whitespace reduces to occurrence in
`m`. -/
theorem infix_ws_sandwich {t : Str} (a m b : Str) (hne : t ≠ [])
    (ht : ∀ x ∈ t, ¬ x.isWhitespace = true)
    (ha : ∀ c ∈ a, c.isWhitespace = true)
    (hb : ∀ c ∈ b, c.isWhitespace = true) :
    t <:+: a ++ m ++ b ↔ t <:+: m := by
  rw [List.append_assoc, infix_ws_prepend a hne ht ha,
    ← infix_reverse_iff t (m ++ b), List.reverse_append,
    infix_ws_prepend b.reverse
      (by simpa using hne)
      (fun x hx => ht x (List.mem_reverse.mp hx))
      (fun c hc => hb c (List.mem_reverse.mp hc)),
    infix_reverse_iff t m]

/-- Checking for a nonempty, all-non-whitespace pattern commutes with
stripping the haystack. -/
theorem pyIn_upper_pyStrip (t s : Str) (hne : t ≠ [])
    (ht : ∀ x ∈ t, ¬ x.isWhitespace = true) :
    pyIn t (upperStr (pyStrip s)) = pyIn t (upperStr s) := by
  obtain ⟨a, b, hdec, ha, hb⟩ := pyStrip_decomp s
  have hmap : upperStr s = a ++ upperStr (pyStrip s) ++ b := by
    conv_lhs => rw [hdec]
    rw [upperStr, List.map_append, List.map_append]
    have hA : a.map Char.toUpper = a :=
      map_id_of_fixes fun c hc => toUpper_of_isWhitespace (ha c hc)
    have hB : b.map Char.toUpper = b :=
      map_id_of_fixes fun c hc => toUpper_of_isWhitespace (hb c hc)
    rw [hA, hB]
    rfl
  rw [hmap, pyIn, pyIn]
  exact decide_eq_decide.mpr (infix_ws_sandwich a _ b hne ht ha hb).symm

/-- Transport a concrete uppercase token's occurrence check through
strip and through `ciOccurs`. -/
theorem pyIn_token_eq_ciOccurs (t s : Str) (hne : t ≠ [])
    (ht : ∀ x ∈ t, ¬ x.isWhitespace = true) (hup : upperStr t = t) :
    pyIn t (upperStr (pyStrip s)) = ciOccurs t s := by
  rw [pyIn_upper_pyStrip t s hne ht, ciOccurs, hup]

/-- C1. For every completion outcome, the router's classification is
the case-insensitive priority-ordered substring match of the spec
(PREFERENCE, MEAL/RECOMMEND, FEEDBACK, KITCHEN), defaulting to
`PREFERENCE_LEARNER` on no match and on any exception from the
completion call (which is not propagated). -/
theorem routeDecision_eq_spec (res : Except LlmErr Str) :
    routeDecision res = specRouteDecision res := by
  cases res with
  | error e => rfl
  | ok s =>
    show routeClassify s = _
    rw [routeClassify, specRouteDecision,
      pyIn_token_eq_ciOccurs (("PREFERENCE").data) s (by decide) (by decide) (by decide),
      pyIn_token_eq_ciOccurs (("MEAL").data) s (by decide) (by decide) (by decide),
      pyIn_token_eq_ciOccurs (("RECOMMEND").data) s (by decide) (by decide) (by decide),
      pyIn_token_eq_ciOccurs (("FEEDBACK").data) s (by decide) (by decide) (by decide),
      pyIn_token_eq_ciOccurs (("KITCHEN").data) s (by decide) (by decide) (by decide)]

/-- A chat message as used by the orchestrator and the prompts
(`ChatMessage` in `models/chat.py`; the timestamp field plays no role in
the routed pipeline and message order is list order). -/
structure Msg where
  role : Str
  content : Str
deriving DecidableEq, Repr

/-- Model of the Python slice `l[-n:]`. -/
def lastN (n : Nat) (l : List α) : List α := l.drop (l.length - n)

/-- Join with newlines, Python `"\n".join(...)`. -/
def joinNL (lines : List Str) : Str := List.intercalate (("\n").data) lines

/-- One history line of the routing prompt,
`f"{msg['role']}: {msg['content'][:100]}..."` (content truncated to its
first 100 characters, with a trailing ellipsis). -/
def renderHistMsg (m : Msg) : Str :=
  m.role ++ ((": ").data) ++ m.content.take 100 ++ (("...").data)

/-- Model of `get_routing_prompt` (`agent_prompts.py` lines 143-155).
Note the `[-3:]` slice applied to the (already windowed) history. -/
def get_routing_prompt (message : Str) (conversation_history : List Msg) : Str :=
  let history_text :=
    if conversation_history.isEmpty then ("No previous conversation").data
    else joinNL ((lastN 3 conversation_history).map renderHistMsg)
  ("Recent conversation:\n").data ++ history_text ++
    ("\n\nCurrent message: \"").data ++ message ++
    ("\"\n\nWhich agent should handle this? Respond with: PREFERENCE_LEARNER, MEAL_RECOMMENDER, FEEDBACK_ANALYZER, or KITCHEN_ROUTER").data

/-- The routing prompt as `route_conversation` builds it (lines 43-49):
the history is windowed to its last 5 messages and projected to
role/content dictionaries (the identity here) before being passed to
`get_routing_prompt`. -/
def routingPromptOf (message : Str) (hist : List Msg) : Str :=
  get_routing_prompt message (lastN 5 hist)

/-- The condensed rendering of the last 5 history messages that the
claim says the routing prompt contains. -/
def render5 (hist : List Msg) : Str := joinNL ((lastN 5 hist).map renderHistMsg)

/-- Taking the last `k` of the last `n` elements is taking the last `k`
elements, when `k ≤ n`. -/
theorem lastN_lastN {k n : Nat} (h : k ≤ n) (l : List α) :
    lastN k (lastN n l) = lastN k l := by
  simp only [lastN, List.drop_drop, List.length_drop]
  congr 1
  omega

/-- `lastN n` of a list is empty iff the list is empty, for positive
`n`. -/
theorem lastN_eq_nil_iff {n : Nat} (hn : 0 < n) (l : List α) :
    lastN n l = [] ↔ l = [] := by
  simp only [lastN, List.drop_eq_nil_iff]
  cases l
  · simp
  · simp
    omega

set_option maxRecDepth 20000 in
/-- C2 counterexample: with a 4-message history, the routing prompt does
not contain the condensed rendering of the last 5 (= all 4) history
messages — the prompt renders only the last 3. -/
theorem routingPrompt_no_render5 :
    pyIn
      (render5 [⟨("user").data, ("A").data⟩, ⟨("user").data, ("B").data⟩,
        ⟨("user").data, ("C").data⟩, ⟨("user").data, ("D").data⟩])
      (routingPromptOf (("hi").data)
        [⟨("user").data, ("A").data⟩, ⟨("user").data, ("B").data⟩,
          ⟨("user").data, ("C").data⟩, ⟨("user").data, ("D").data⟩]) = false := by
  decide

/-- C2 amended: for every message and history, the routing prompt is the
fixed template around a condensed rendering of exactly the last 3
history messages (all of them when fewer than 3 exist), each history
message's content truncated to its first 100 characters (with a trailing
ellipsis); an empty history renders as the fixed placeholder text. -/
theorem routingPrompt_renders_last3 (message : Str) (hist : List Msg) :
    routingPromptOf message hist =
      ("Recent conversation:\n").data ++
        (if hist = [] then ("No previous conversation").data
          else joinNL ((lastN 3 hist).map renderHistMsg)) ++
        ("\n\nCurrent message: \"").data ++ message ++
        ("\"\n\nWhich agent should handle this? Respond with: PREFERENCE_LEARNER, MEAL_RECOMMENDER, FEEDBACK_ANALYZER, or KITCHEN_ROUTER").data := by
  rw [routingPromptOf, get_routing_prompt]
  have hempty : (lastN 5 hist).isEmpty = decide (hist = []) := by
    rcases Decidable.em (hist = []) with h | h
    · subst h
      rfl
    · have : lastN 5 hist ≠ [] := fun hc =>
        h ((lastN_eq_nil_iff (by omega) hist).mp hc)
      simp [List.isEmpty_iff, this, h]
  rw [hempty, lastN_lastN (by omega) hist]
  rcases Decidable.em (hist = []) with h | h <;> simp [h]

/-- Model of Python `str.split()` with no separator: split on runs of
whitespace, discarding empty tokens. -/
def pyWords (s : Str) : List Str :=
  let step : Char → (Str × List Str) → (Str × List Str) := fun c p =>
    if c.isWhitespace then ([], if p.1.isEmpty then p.2 else p.1 :: p.2)
    else (c :: p.1, p.2)
  let r := s.foldr step ([], [])
  if r.1.isEmpty then r.2 else r.1 :: r.2

/-- Model of Python `str.isdigit()` (ASCII digits). -/
def pyIsDigit (w : Str) : Bool := !w.isEmpty && w.all Char.isDigit

/-- Model of Python `int(...)` on an all-digit token. -/
def natVal (w : Str) : Nat := w.foldl (fun a c => 10 * a + (c.toNat - 48)) 0

/-- The loop condition of the calorie extraction (line 342):
`word.isdigit() and int(word) > 200 and int(word) < 5000`. -/
def calTokOk (w : Str) : Bool :=
  pyIsDigit w && decide (200 < natVal w) && decide (natVal w < 5000)

/-- The preferences dictionary built by
`_extract_preferences_from_conversation`.  Key presence is modelled as
`dietary_restrictions ≠ []` resp. `calorie_target ≠ none`. -/
structure Prefs where
  dietary_restrictions : List Str
  calorie_target : Option Nat
deriving DecidableEq, Repr

/-- Python truthiness of the `preferences` dict (nonempty iff some key
was set). -/
def prefsNonempty (p : Prefs) : Bool :=
  !p.dietary_restrictions.isEmpty || p.calorie_target.isSome

/-- The `dietary_tags` list built by lines 320-332: one sequential
substring check per fixed keyword over the lowercased user message. -/
def dietaryTags (user_lower : Str) : List Str :=
  (if pyIn (("vegetarian").data) user_lower then [("vegetarian").data] else []) ++
  (if pyIn (("vegan").data) user_lower then [("vegan").data] else []) ++
  (if pyIn (("keto").data) user_lower then [("keto").data] else []) ++
  (if pyIn (("gluten free").data) user_lower || pyIn (("gluten-free").data) user_lower
    then [("gluten_free").data] else []) ++
  (if pyIn (("dairy free").data) user_lower || pyIn (("dairy-free").data) user_lower
    then [("dairy_free").data] else []) ++
  (if pyIn (("halal").data) user_lower then [("halal").data] else [])

/-- Model of `_extract_preferences_from_conversation` (lines 313-346).
As in the source, the assistant message is accepted but unused; the
`for`/`break` loop over `words` is the first token satisfying the
condition. -/
def extract_preferences_from_conversation (user_msg assistant_msg : Str) : Prefs :=
  let user_lower := lowerStr user_msg
  { dietary_restrictions := dietaryTags user_lower
    calorie_target :=
      if pyIn (("calorie").data) user_lower then
        ((pyWords user_lower).find? calTokOk).map natVal
      else none }

/-- A per-user context dictionary (`user_contexts` values).  The agent
code only ever writes the keys `dietary_restrictions` and
`calorie_target`; `favorite_cuisines` is carried because
`_preferences_to_text` reads it.  `none` models key absence. -/
structure UserCtx where
  dietary_restrictions : Option (List Str)
  favorite_cuisines : Option (List Str)
  calorie_target : Option Nat
deriving DecidableEq, Repr

/-- The empty per-user context (`user_contexts.get(user_id, \x7b\x7d)`). -/
def emptyCtx : UserCtx := ⟨none, none, none⟩

/-- Python truthiness of a user-context dict: some key present. -/
def ctxNonempty (c : UserCtx) : Bool :=
  c.dietary_restrictions.isSome || c.favorite_cuisines.isSome || c.calorie_target.isSome

/-- Dictionary lookup in a process-wide table keyed by id. -/
def tblGet {V : Type} (k : Str) : List (Str × V) → Option V
  | [] => none
  | e :: rest => if k = e.1 then some e.2 else tblGet k rest

/-- Dictionary write (insert or overwrite) in a process-wide table. -/
def tblSet {V : Type} (k : Str) (v : V) : List (Str × V) → List (Str × V)
  | [] => [(k, v)]
  | e :: rest => if k = e.1 then (k, v) :: rest else e :: tblSet k v rest

theorem tblGet_tblSet_self {V : Type} (k : Str) (v : V) (t : List (Str × V)) :
    tblGet k (tblSet k v t) = some v := by
  induction t with
  | nil => simp [tblGet, tblSet]
  | cons e rest ih =>
    by_cases h : k = e.1 <;> simp [tblGet, tblSet, h, ih]

theorem tblGet_tblSet_ne {V : Type} {k k' : Str} (hne : k' ≠ k) (v : V)
    (t : List (Str × V)) : tblGet k' (tblSet k v t) = tblGet k' t := by
  induction t with
  | nil => simp [tblGet, tblSet, hne]
  | cons e rest ih =>
    by_cases h : k = e.1
    · subst h
      simp [tblGet, tblSet, hne]
    · simp only [tblSet, if_neg h]
      by_cases h' : k' = e.1 <;> simp [tblGet, h', ih]

/-- Model of `_update_user_context` (lines 349-360): ensure the user's
dict exists, then merge key by key — `dietary_restrictions` by
`list(set(existing + value))` (modelled as `List.dedup` of the
concatenation; Python's `set` iteration order is unspecified, and all
claims about it are order-independent), scalar keys by overwrite. -/
def update_user_context (user_id : Str) (new_preferences : Prefs)
    (ctxs : List (Str × UserCtx)) : List (Str × UserCtx) :=
  let cur := (tblGet user_id ctxs).getD emptyCtx
  let cur :=
    if new_preferences.dietary_restrictions.isEmpty then cur
    else
      let merged := ((cur.dietary_restrictions.getD []) ++
        new_preferences.dietary_restrictions).dedup
      { cur with dietary_restrictions := some merged }
  let cur :=
    match new_preferences.calorie_target with
    | some n => { cur with calorie_target := some n }
    | none => cur
  tblSet user_id cur ctxs

/-- The dietary-restriction set recorded for a user (empty when the
user or the key is absent). -/
def dietaryOf (uid : Str) (t : List (Str × UserCtx)) : List Str :=
  (((tblGet uid t).getD emptyCtx).dietary_restrictions).getD []

/-- The calorie target recorded for a user. -/
def calorieOf (uid : Str) (t : List (Str × UserCtx)) : Option Nat :=
  ((tblGet uid t).getD emptyCtx).calorie_target

/-- Membership in a one-element conditional list. -/
theorem mem_if_singleton {x t : Str} {b : Bool} :
    x ∈ (if b then [t] else ([] : List Str)) ↔ (b = true ∧ x = t) := by
  cases b <;> simp

/-- Unfolded membership in the `dietary_tags` list. -/
theorem mem_dietaryTags (lw x : Str) :
    x ∈ dietaryTags lw ↔
      ((pyIn (("vegetarian").data) lw = true ∧ x = ("vegetarian").data) ∨
       (pyIn (("vegan").data) lw = true ∧ x = ("vegan").data) ∨
       (pyIn (("keto").data) lw = true ∧ x = ("keto").data) ∨
       ((pyIn (("gluten free").data) lw || pyIn (("gluten-free").data) lw) = true ∧
         x = ("gluten_free").data) ∨
       ((pyIn (("dairy free").data) lw || pyIn (("dairy-free").data) lw) = true ∧
         x = ("dairy_free").data) ∨
       (pyIn (("halal").data) lw = true ∧ x = ("halal").data)) := by
  simp only [dietaryTags, List.mem_append, mem_if_singleton]
  tauto

/-- C8. The deterministic keyword scan extracts a calorie target exactly
when the lowercased message contains "calorie" and some whitespace-
delimited all-digit token strictly between 200 and 5000; the extracted
value is that of the first such token.  The dietary checks are the fixed
substrings vegetarian, vegan, keto, gluten free/gluten-free,
dairy free/dairy-free, halal (recorded under the corresponding tag). -/
theorem extract_prefs_characterization (user_msg assistant_msg : Str) :
    ((∃ n, (extract_preferences_from_conversation user_msg assistant_msg).calorie_target
        = some n) ↔
      (("calorie").data <:+: lowerStr user_msg ∧
        ∃ w, w ∈ pyWords (lowerStr user_msg) ∧
          pyIsDigit w = true ∧ 200 < natVal w ∧ natVal w < 5000)) ∧
    (∀ n, (extract_preferences_from_conversation user_msg assistant_msg).calorie_target
        = some n →
      ∃ w, (pyWords (lowerStr user_msg)).find? calTokOk = some w ∧ natVal w = n) ∧
    ((("vegetarian").data ∈
        (extract_preferences_from_conversation user_msg assistant_msg).dietary_restrictions)
      ↔ ("vegetarian").data <:+: lowerStr user_msg) ∧
    ((("vegan").data ∈
        (extract_preferences_from_conversation user_msg assistant_msg).dietary_restrictions)
      ↔ ("vegan").data <:+: lowerStr user_msg) ∧
    ((("keto").data ∈
        (extract_preferences_from_conversation user_msg assistant_msg).dietary_restrictions)
      ↔ ("keto").data <:+: lowerStr user_msg) ∧
    ((("gluten_free").data ∈
        (extract_preferences_from_conversation user_msg assistant_msg).dietary_restrictions)
      ↔ (("gluten free").data <:+: lowerStr user_msg ∨
          ("gluten-free").data <:+: lowerStr user_msg)) ∧
    ((("dairy_free").data ∈
        (extract_preferences_from_conversation user_msg assistant_msg).dietary_restrictions)
      ↔ (("dairy free").data <:+: lowerStr user_msg ∨
          ("dairy-free").data <:+: lowerStr user_msg)) ∧
    ((("halal").data ∈
        (extract_preferences_from_conversation user_msg assistant_msg).dietary_restrictions)
      ↔ ("halal").data <:+: lowerStr user_msg) := by
  refine ⟨?_, ?_, ?_, ?_, ?_, ?_, ?_, ?_⟩
  · simp only [extract_preferences_from_conversation]
    cases hcal : pyIn (("calorie").data) (lowerStr user_msg) with
    | false =>
      simp only [pyIn, decide_eq_false_iff_not] at hcal
      simp [hcal]
    | true =>
      have hinf : ("calorie").data <:+: lowerStr user_msg := by
        simpa [pyIn] using hcal
      simp only [hcal, if_true, hinf, true_and]
      constructor
      · rintro ⟨n, hn⟩
        rcases Option.map_eq_some.mp hn with ⟨w, hw, _⟩
        have hmem := List.mem_of_find?_eq_some hw
        have hok := List.find?_some hw
        simp only [calTokOk, Bool.and_eq_true, decide_eq_true_eq] at hok
        exact ⟨w, hmem, hok.1.1, hok.1.2, hok.2⟩
      · rintro ⟨w, hmem, hd, h1, h2⟩
        have : ((pyWords (lowerStr user_msg)).find? calTokOk).isSome := by
          rw [List.find?_isSome]
          exact ⟨w, hmem, by simp [calTokOk, hd, h1, h2]⟩
        rcases Option.isSome_iff_exists.mp this with ⟨w', hw'⟩
        exact ⟨natVal w', by simp [hw']⟩
  · simp only [extract_preferences_from_conversation]
    cases hcal : pyIn (("calorie").data) (lowerStr user_msg) with
    | false => simp
    | true =>
      intro n hn
      rcases Option.map_eq_some.mp hn with ⟨w, hw, hv⟩
      exact ⟨w, hw, hv⟩
  · rw [show (extract_preferences_from_conversation user_msg assistant_msg).dietary_restrictions
        = dietaryTags (lowerStr user_msg) from rfl, mem_dietaryTags]
    simp only [pyIn, Bool.or_eq_true, decide_eq_true_eq]
    constructor
    · rintro (⟨h, _⟩ | ⟨_, he⟩ | ⟨_, he⟩ | ⟨_, he⟩ | ⟨_, he⟩ | ⟨_, he⟩)
      · exact h
      all_goals exact absurd he (by decide)
    · intro h
      exact Or.inl ⟨h, trivial⟩
  · rw [show (extract_preferences_from_conversation user_msg assistant_msg).dietary_restrictions
        = dietaryTags (lowerStr user_msg) from rfl, mem_dietaryTags]
    simp only [pyIn, Bool.or_eq_true, decide_eq_true_eq]
    constructor
    · rintro (⟨_, he⟩ | ⟨h, _⟩ | ⟨_, he⟩ | ⟨_, he⟩ | ⟨_, he⟩ | ⟨_, he⟩)
      · exact absurd he (by decide)
      · exact h
      all_goals exact absurd he (by decide)
    · intro h
      exact Or.inr (Or.inl ⟨h, trivial⟩)
  · rw [show (extract_preferences_from_conversation user_msg assistant_msg).dietary_restrictions
        = dietaryTags (lowerStr user_msg) from rfl, mem_dietaryTags]
    simp only [pyIn, Bool.or_eq_true, decide_eq_true_eq]
    constructor
    · rintro (⟨_, he⟩ | ⟨_, he⟩ | ⟨h, _⟩ | ⟨_, he⟩ | ⟨_, he⟩ | ⟨_, he⟩)
      · exact absurd he (by decide)
      · exact absurd he (by decide)
      · exact h
      all_goals exact absurd he (by decide)
    · intro h
      exact Or.inr (Or.inr (Or.inl ⟨h, trivial⟩))
  · rw [show (extract_preferences_from_conversation user_msg assistant_msg).dietary_restrictions
        = dietaryTags (lowerStr user_msg) from rfl, mem_dietaryTags]
    simp only [pyIn, Bool.or_eq_true, decide_eq_true_eq]
    constructor
    · rintro (⟨_, he⟩ | ⟨_, he⟩ | ⟨_, he⟩ | ⟨h, _⟩ | ⟨_, he⟩ | ⟨_, he⟩)
      · exact absurd he (by decide)
      · exact absurd he (by decide)
      · exact absurd he (by decide)
      · exact h
      all_goals exact absurd he (by decide)
    · intro h
      exact Or.inr (Or.inr (Or.inr (Or.inl ⟨h, trivial⟩)))
  · rw [show (extract_preferences_from_conversation user_msg assistant_msg).dietary_restrictions
        = dietaryTags (lowerStr user_msg) from rfl, mem_dietaryTags]
    simp only [pyIn, Bool.or_eq_true, decide_eq_true_eq]
    constructor
    · rintro (⟨_, he⟩ | ⟨_, he⟩ | ⟨_, he⟩ | ⟨_, he⟩ | ⟨h, _⟩ | ⟨_, he⟩)
      · exact absurd he (by decide)
      · exact absurd he (by decide)
      · exact absurd he (by decide)
      · exact absurd he (by decide)
      · exact h
      · exact absurd he (by decide)
    · intro h
      exact Or.inr (Or.inr (Or.inr (Or.inr (Or.inl ⟨h, trivial⟩))))
  · rw [show (extract_preferences_from_conversation user_msg assistant_msg).dietary_restrictions
        = dietaryTags (lowerStr user_msg) from rfl, mem_dietaryTags]
    simp only [pyIn, Bool.or_eq_true, decide_eq_true_eq]
    constructor
    · rintro (⟨_, he⟩ | ⟨_, he⟩ | ⟨_, he⟩ | ⟨_, he⟩ | ⟨_, he⟩ | ⟨h, _⟩)
      · exact absurd he (by decide)
      · exact absurd he (by decide)
      · exact absurd he (by decide)
      · exact absurd he (by decide)
      · exact absurd he (by decide)
      · exact h
    · intro h
      exact Or.inr (Or.inr (Or.inr (Or.inr (Or.inr ⟨h, trivial⟩))))

/-- C8 non-vacuity: a message mentioning "vegan" and "500 calories"
yields the vegan tag and a calorie target. -/
theorem extract_prefs_characterization_witness :
    ("vegan").data ∈ (extract_preferences_from_conversation
      (("i want vegan meals around 500 calories").data) []).dietary_restrictions ∧
    (∃ n, (extract_preferences_from_conversation
      (("i want vegan meals around 500 calories").data) []).calorie_target =
        some n) := by
  have h := extract_prefs_characterization
    (("i want vegan meals around 500 calories").data) []
  exact ⟨h.2.2.2.1.mpr (by decide), h.1.mpr (by decide)⟩

/-- One `_update_user_context` call merges the dietary-restriction set
by union, deduplicates it, and overwrites the calorie target. -/
theorem update_user_context_spec (uid : Str) (p : Prefs)
    (t : List (Str × UserCtx)) :
    (∀ x, x ∈ dietaryOf uid (update_user_context uid p t) ↔
      (x ∈ dietaryOf uid t ∨ x ∈ p.dietary_restrictions)) ∧
    (p.dietary_restrictions ≠ [] →
      (dietaryOf uid (update_user_context uid p t)).Nodup) ∧
    (∀ n, p.calorie_target = some n →
      calorieOf uid (update_user_context uid p t) = some n) := by
  rcases p with ⟨d, c⟩
  cases d with
  | nil =>
    cases c with
    | none =>
      simp [update_user_context, dietaryOf, calorieOf, tblGet_tblSet_self]
    | some n =>
      simp [update_user_context, dietaryOf, calorieOf, tblGet_tblSet_self]
  | cons x xs =>
    cases c with
    | none =>
      simp [update_user_context, dietaryOf, calorieOf, tblGet_tblSet_self,
        List.mem_dedup, List.mem_append, List.nodup_dedup]
    | some n =>
      simp [update_user_context, dietaryOf, calorieOf, tblGet_tblSet_self,
        List.mem_dedup, List.mem_append, List.nodup_dedup]

/-- C6. The user-context merge unions list-valued keys and overwrites
scalar keys; any message containing "vegan" adds `vegan` to the user's
dietary-restriction set; the resulting set never has duplicates and
re-processing the same preferences is idempotent on the set. -/
theorem vegan_merge_idempotent (uid msg resp : Str)
    (ctxs : List (Str × UserCtx)) (hveg : ("vegan").data <:+: lowerStr msg) :
    ∀ p t1 t2, p = extract_preferences_from_conversation msg resp →
      t1 = update_user_context uid p ctxs →
      t2 = update_user_context uid p t1 →
      (("vegan").data ∈ dietaryOf uid t1 ∧
       (dietaryOf uid t1).Nodup ∧
       (dietaryOf uid t2).Nodup ∧
       (∀ x, x ∈ dietaryOf uid t2 ↔ x ∈ dietaryOf uid t1) ∧
       (∀ x, x ∈ dietaryOf uid t1 ↔
         (x ∈ dietaryOf uid ctxs ∨ x ∈ p.dietary_restrictions)) ∧
       (∀ n, p.calorie_target = some n → calorieOf uid t1 = some n)) := by
  intro p t1 t2 hp ht1 ht2
  subst hp
  subst ht1
  subst ht2
  have hvp : ("vegan").data ∈
      (extract_preferences_from_conversation msg resp).dietary_restrictions := by
    rw [show (extract_preferences_from_conversation msg resp).dietary_restrictions
      = dietaryTags (lowerStr msg) from rfl, mem_dietaryTags]
    exact Or.inr (Or.inl ⟨by simpa [pyIn] using hveg, rfl⟩)
  have hne : (extract_preferences_from_conversation msg resp).dietary_restrictions
      ≠ [] := by
    intro h
    rw [h] at hvp
    exact absurd hvp (List.not_mem_nil _)
  obtain ⟨hmem1, hnd1, hcal1⟩ :=
    update_user_context_spec uid (extract_preferences_from_conversation msg resp) ctxs
  obtain ⟨hmem2, hnd2, _⟩ :=
    update_user_context_spec uid (extract_preferences_from_conversation msg resp)
      (update_user_context uid (extract_preferences_from_conversation msg resp) ctxs)
  refine ⟨(hmem1 _).mpr (Or.inr hvp), hnd1 hne, hnd2 hne, ?_, hmem1, hcal1⟩
  intro x
  rw [hmem2 x]
  constructor
  · rintro (h | h)
    · exact h
    · exact (hmem1 x).mpr (Or.inr h)
  · exact Or.inl

/-- C6 non-vacuity: processing "i am vegan" for user "u" on an empty
context table records `vegan` without duplicates. -/
theorem vegan_merge_idempotent_witness :
    ("vegan").data ∈ dietaryOf (("u").data)
      (update_user_context (("u").data)
        (extract_preferences_from_conversation (("i am vegan").data) []) []) ∧
    (dietaryOf (("u").data)
      (update_user_context (("u").data)
        (extract_preferences_from_conversation (("i am vegan").data) []) [])).Nodup := by
  have h := vegan_merge_idempotent (("u").data) (("i am vegan").data) [] []
    (by decide) _ _ _ rfl rfl rfl
  exact ⟨h.1, h.2.1⟩

/-- Decimal rendering of a number, Python `str(n)` / f-string
interpolation of an int. -/
def natToStr (n : Nat) : Str := Nat.toDigits 10 n

/-- Join with ", ", Python `", ".join(...)`. -/
def joinComma (xs : List Str) : Str := List.intercalate ((", ").data) xs

/-- Metadata stored per meal in the Chroma collection
(`_load_meal_data`, all values stringified). -/
structure MealMeta where
  id : Str
  name : Str
  category : Str
  dietary_tags : Str
  calories : Str
  protein : Str
  popularity : Str
deriving DecidableEq, Repr

/-- One aligned row of a Chroma query result (id, metadata, document,
distance).  Distances are modelled as rationals. -/
structure ChromaHit where
  id : Str
  metadata : MealMeta
  document : Str
  distance : ℚ
deriving DecidableEq

/-- One formatted search result of `search_meals` (lines 157-166). -/
structure MealRes where
  id : Str
  metadata : MealMeta
  document : Str
  distance : ℚ
  relevance_score : ℚ
deriving DecidableEq

/-- The two external collaborators: the completion backend (a stream of
outcomes indexed by call count, also given the prompt) and the Chroma
index (a pure function of query text, category filter and result
count). -/
structure Oracle where
  llm : Nat → Str → Except LlmErr Str
  chroma : Str → Option Str → Nat → List ChromaHit

/-- Model of `search_meals` (`rag_service.py` lines 118-168).  The
`dietary_restrictions` argument is accepted but the filter branch is
`pass` (lines 143-145), so it never affects the query; the `category`
filter is forwarded.  Each hit is formatted with
`relevance_score = 1 - distance`. -/
def search_meals (o : Oracle) (query : Str)
    (dietary_restrictions : Option (List Str)) (category : Option Str)
    (max_results : Nat) : List MealRes :=
  let where_filter : Option Str := category
  (o.chroma query where_filter max_results).map fun h =>
    { id := h.id, metadata := h.metadata, document := h.document,
      distance := h.distance, relevance_score := 1 - h.distance }

/-- Model of `_preferences_to_text` (lines 223-233). -/
def preferences_to_text (preferences : UserCtx) : Str :=
  let parts : List Str :=
    (match preferences.dietary_restrictions with
     | some l => [("dietary needs: ").data ++ joinComma l]
     | none => []) ++
    (match preferences.favorite_cuisines with
     | some l => [("favorite cuisines: ").data ++ joinComma l]
     | none => []) ++
    (match preferences.calorie_target with
     | some n => [("target calories: ").data ++ natToStr n]
     | none => [])
  if parts.isEmpty then ("no specific preferences").data
  else List.intercalate (("; ").data) parts

/-- Model of `get_contextual_meals` (lines 192-220): augment the query
with a textual rendering of the preferences when the preferences dict is
truthy, delegate to `search_meals`, and return the results with an
explanation string. -/
def get_contextual_meals (o : Oracle) (user_query : Str)
    (user_preferences : UserCtx) (top_k : Nat) : List MealRes × Str :=
  let enhanced_query :=
    if ctxNonempty user_preferences then
      user_query ++ ((". User preferences: ").data) ++
        preferences_to_text user_preferences
    else user_query
  let meals := search_meals o enhanced_query none none top_k
  let context := ("Found ").data ++ natToStr meals.length ++
    (" meals matching: ").data ++ user_query
  (meals, context)

/-- C9. `search_meals` is independent of its `dietary_restrictions`
argument: the filter parameter is accepted but dead. -/
theorem search_meals_ignores_dietary (o : Oracle) (query : Str)
    (d d' : Option (List Str)) (category : Option Str) (max_results : Nat) :
    search_meals o query d category max_results =
      search_meals o query d' category max_results := rfl

/-- C7. With an empty preferences mapping, `get_contextual_meals`
returns the same result sequence as `search_meals` called directly with
the unmodified query. -/
theorem contextual_empty_prefs_eq_search (o : Oracle) (user_query : Str)
    (top_k : Nat) :
    (get_contextual_meals o user_query emptyCtx top_k).1 =
      search_meals o user_query none none top_k := rfl

/-- JSON values, the result type of `json.loads`. -/
inductive Json where
  | null
  | bool (b : Bool)
  | num (n : Int)
  | str (s : Str)
  | arr (elems : List Json)
  | obj (fields : List (Str × Json))

/-- JSON insignificant whitespace. -/
def jsonWsChar (c : Char) : Bool := c = ' ' || c = '\t' || c = '\n' || c = '\x0d'

/-- Skip JSON whitespace. -/
def skipWs (s : Str) : Str := s.dropWhile jsonWsChar

/-- JSON string escapes (the common single-character ones; `\u` escapes
are outside the modelled subset). -/
def escMap (e : Char) : Option Char :=
  if e = '"' then some '"'
  else if e = '\\' then some '\\'
  else if e = '/' then some '/'
  else if e = 'n' then some '\n'
  else if e = 't' then some '\t'
  else if e = 'r' then some '\x0d'
  else none

/-- Fuel-bounded worker for `parseStringBody` (fuel keeps the
recursion structural so that concrete runs reduce definitionally). -/
def parseStrB : Nat → Str → Option (Str × Str)
  | 0, _ => none
  | fuel + 1, s =>
    match s with
    | [] => none
    | c :: rest =>
      if c = '"' then some ([], rest)
      else if c = '\\' then
        match rest with
        | [] => none
        | e :: rest2 =>
          match escMap e with
          | some ec => (parseStrB fuel rest2).map fun p => (ec :: p.1, p.2)
          | none => none
      else (parseStrB fuel rest).map fun p => (c :: p.1, p.2)

/-- Parse the body of a JSON string after the opening quote, returning
the decoded content and the remainder after the closing quote. -/
def parseStringBody (s : Str) : Option (Str × Str) := parseStrB (s.length + 1) s

/-- Leading digit run of a string and the remainder. -/
def takeDigits (s : Str) : Str × Str :=
  (s.takeWhile Char.isDigit, s.dropWhile Char.isDigit)

/-- True when the remainder continues a float literal; the modelled
`json.loads` subset covers integers only and rejects floats. -/
def isFloatNext : Str → Bool
  | c :: _ => c = '.' || c = 'e' || c = 'E'
  | [] => false

/-- Parse a JSON integer literal. -/
def parseNum (s : Str) : Option (Json × Str) :=
  match s with
  | '-' :: rest =>
    let p := takeDigits rest
    if p.1.isEmpty then none
    else if isFloatNext p.2 then none
    else some (.num (-(natVal p.1 : Int)), p.2)
  | _ =>
    let p := takeDigits s
    if p.1.isEmpty then none
    else if isFloatNext p.2 then none
    else some (.num ((natVal p.1 : Int)), p.2)

/-- Fuel-bounded recursive descent parser, structurally recursive on
the fuel so that concrete runs reduce definitionally.  `mode = 0`
parses one JSON value; `mode = 1` parses the comma-separated items of a
nonempty array up to `]`; any other mode parses the members of a
nonempty object up to `}`.  This models the grammar `json.loads`
accepts (with integer-only numbers). -/
def parseF : Nat → Nat → Str → Option (Json × Str)
  | 0, _, _ => none
  | fuel + 1, mode, s =>
    if mode = 0 then
      match skipWs s with
      | [] => none
      | c :: rest =>
        if c = 'n' then
          if (("ull").data).isPrefixOf rest then some (.null, rest.drop 3)
          else none
        else if c = 't' then
          if (("rue").data).isPrefixOf rest then some (.bool true, rest.drop 3)
          else none
        else if c = 'f' then
          if (("alse").data).isPrefixOf rest then some (.bool false, rest.drop 4)
          else none
        else if c = '"' then
          (parseStringBody rest).map fun p => (.str p.1, p.2)
        else if c = '[' then
          match skipWs rest with
          | ']' :: r2 => some (.arr [], r2)
          | _ => parseF fuel 1 rest
        else if c = '{' then
          match skipWs rest with
          | '}' :: r2 => some (.obj [], r2)
          | _ => parseF fuel 2 rest
        else parseNum (c :: rest)
    else if mode = 1 then
      match parseF fuel 0 s with
      | none => none
      | some (v, r) =>
        match skipWs r with
        | ',' :: r2 =>
          match parseF fuel 1 r2 with
          | some (.arr vs, r3) => some (.arr (v :: vs), r3)
          | _ => none
        | ']' :: r2 => some (.arr [v], r2)
        | _ => none
    else
      match skipWs s with
      | '"' :: r =>
        match parseStringBody r with
        | none => none
        | some (k, r2) =>
          match skipWs r2 with
          | ':' :: r3 =>
            match parseF fuel 0 r3 with
            | none => none
            | some (v, r4) =>
              match skipWs r4 with
              | ',' :: r5 =>
                match parseF fuel 2 r5 with
                | some (.obj fs, r6) => some (.obj ((k, v) :: fs), r6)
                | _ => none
              | '}' :: r5 => some (.obj [(k, v)], r5)
              | _ => none
          | _ => none
      | _ => none

/-- Parse one JSON value. -/
def parseVal (fuel : Nat) (s : Str) : Option (Json × Str) := parseF fuel 0 s

/-- Model of `json.loads`: parse one JSON value and require only
whitespace to remain. -/
def json_loads (s : Str) : Option Json :=
  match parseVal (s.length + 1) s with
  | some (v, rest) => if (skipWs rest).isEmpty then some v else none
  | none => none

/-- Split a string at the first occurrence of a pattern, returning the
text before and after the occurrence. -/
def splitFirst (pat : Str) (s : Str) : Option (Str × Str) :=
  if pat.isPrefixOf s then some ([], s.drop pat.length)
  else
    match s with
    | [] => none
    | c :: rest => (splitFirst pat rest).map fun p => (c :: p.1, p.2)

/-- Python `s.split(pat)[0]`: text before the first occurrence (the
whole string when the pattern is absent). -/
def takeUntil (pat : Str) (s : Str) : Str :=
  match splitFirst pat s with
  | some p => p.1
  | none => s

/-- Python `s.split(pat)[1]` truncated at the next fence: text after
the first occurrence (empty when absent; only used under an occurrence
check). -/
def afterFirst (pat : Str) (s : Str) : Str :=
  match splitFirst pat s with
  | some p => p.2
  | none => []

/-- Failure modes of the JSON-recovery chain: `json.JSONDecodeError`
raised by a fenced re-parse, and the explicit `ValueError` of line 163.
Both are `ValueError`s in Python, i.e. `MalformedStructuredOutput`. -/
inductive GsoErr where
  | jsonDecodeError
  | couldNotParse
deriving DecidableEq, Repr

/-- The JSON-recovery portion of `generate_structured_output`
(`llm_service.py` lines 150-163): direct parse; on failure, if
"```json" occurs, re-parse the stripped text between it and the next
"```" (an inner failure raises and is not caught); otherwise if "```"
occurs, likewise for the first generic fence; otherwise raise. -/
def generate_structured_output_parse (response : Str) : Except GsoErr Json :=
  match json_loads response with
  | some v => .ok v
  | none =>
    if pyIn (("```json").data) response then
      match json_loads (pyStrip (takeUntil (("```").data)
          (afterFirst (("```json").data) response))) with
      | some v => .ok v
      | none => .error .jsonDecodeError
    else if pyIn (("```").data) response then
      match json_loads (pyStrip (takeUntil (("```").data)
          (afterFirst (("```").data) response))) with
      | some v => .ok v
      | none => .error .jsonDecodeError
    else .error .couldNotParse

/-- The stripped content of the first "```json" fenced block. -/
def jsonFenceText (response : Str) : Str :=
  pyStrip (takeUntil (("```").data) (afterFirst (("```json").data) response))

/-- The stripped content of the first generic "```" fenced block. -/
def genericFenceText (response : Str) : Str :=
  pyStrip (takeUntil (("```").data) (afterFirst (("```").data) response))

/-- A response on which the claimed strategy chain and the code
diverge: a generic fenced block holding valid JSON, followed by a
"```json" fenced block holding garbage. -/
def cexResponse : Str :=
  ("``` \x7b\"a\": 1\x7d ``` ```json oops ```").data

/-- C4 counterexample: on `cexResponse` the code fails (with a
`ValueError`, i.e. `MalformedStructuredOutput`) even though valid JSON
is recoverable from the first generic "```" fenced block — refuting
"attempts ```json, then generic ```" and "fails only when no valid JSON
is recoverable". -/
theorem gso_fails_despite_recoverable :
    generate_structured_output_parse cexResponse = .error .jsonDecodeError ∧
    json_loads (genericFenceText cexResponse) =
      some (Json.obj [((("a").data), Json.num 1)]) := by
  constructor
  · rfl
  · rfl

/-- The amended recovery behaviour, stated from the corrected claim:
direct parse first; if that fails and "```json" occurs anywhere, only
the first "```json" fenced block is tried (failure there is final); else
if "```" occurs, only the first generic fenced block is tried; else the
call fails with no recovery attempted. -/
def specAmendedChain (response : Str) : Except GsoErr Json :=
  match json_loads response with
  | some v => .ok v
  | none =>
    if pyIn (("```json").data) response then
      match json_loads (jsonFenceText response) with
      | some v => .ok v
      | none => .error .jsonDecodeError
    else if pyIn (("```").data) response then
      match json_loads (genericFenceText response) with
      | some v => .ok v
      | none => .error .jsonDecodeError
    else .error .couldNotParse

/-- C4 amended: the recovery chain is direct parse, then the single
fence selected by presence of "```json" (else "```"), failing when that
one extraction is not valid JSON or no fence exists; on the two concrete
examples, ```json-fenced `{"a":1}` parses to the mapping a ↦ 1 and
`not json at all` fails with `MalformedStructuredOutput`. -/
theorem gso_parse_amended_spec :
    (∀ response : Str,
      generate_structured_output_parse response = specAmendedChain response) ∧
    generate_structured_output_parse (("```json\n\x7b\"a\":1\x7d\n```").data) =
      .ok (Json.obj [((("a").data), Json.num 1)]) ∧
    generate_structured_output_parse (("not json at all").data) =
      .error .couldNotParse := by
  refine ⟨fun response => rfl, ?_, ?_⟩
  · rfl
  · rfl

/-- Process-wide mutable state of `agent_service.py`: the conversation
table, the user-context table, and the completion-call counter indexing
the oracle stream (each `generate_completion` consumes one stream
position, so an unchanged counter means no completion call was made). -/
structure AgentState where
  conversations : List (Str × List Msg)
  user_contexts : List (Str × UserCtx)
  llmIdx : Nat
deriving DecidableEq

/-- Advance the completion-call counter (one `generate_completion`
call). -/
def bumpLlm (st : AgentState) : AgentState := { st with llmIdx := st.llmIdx + 1 }

/-- A handler's result dictionary.  `none` models an absent key;
confidences are rationals. -/
structure HandlerResult where
  message : Str
  agent_used : Str
  confidence : ℚ
  recommendations : Option (List Str) := none
  extracted_preferences : Option Prefs := none
  context : Option Str := none
  analysis : Option Json := none
  requires_kitchen_action : Option Json := none
  routing_info : Option Json := none
  conversation_id : Option Str := none

/-- Python `str()` of a parsed JSON scalar as interpolated into reply
f-strings.  The rendering of nested containers is not modelled (no
claim depends on it). -/
def pyStrOfJson : Json → Str
  | .str s => s
  | .num n => if n < 0 then '-' :: natToStr n.natAbs else natToStr n.toNat
  | .bool true => ("True").data
  | .bool false => ("False").data
  | .null => ("None").data
  | .arr _ => ("<list>").data
  | .obj _ => ("<dict>").data

/-- Python `d.get(k)` on a parsed JSON object. -/
def jsonGet (j : Json) (k : Str) : Option Json :=
  match j with
  | .obj fs => tblGet k fs
  | _ => none

/-- Python truthiness of a JSON value (`None` for a missing key is
falsy). -/
def jsonTruthy : Json → Bool
  | .null => false
  | .bool b => b
  | .num n => decide (n ≠ 0)
  | .str s => !s.isEmpty
  | .arr l => !l.isEmpty
  | .obj l => !l.isEmpty

/-- True when `j.get(k)` is truthy. -/
def jsonGetTruthy (j : Json) (k : Str) : Bool :=
  ((jsonGet j k).map jsonTruthy).getD false

/-- Whether `j.get(k)` equals the given string. -/
def jsonGetStrEq (j : Json) (k : Str) (s : Str) : Bool :=
  match jsonGet j k with
  | some (.str t) => decide (t = s)
  | _ => false

/-- The preference-learning prompt (lines 89-94 of
`agent_service.py`). -/
def pref_learning_prompt (history_text message : Str) : Str :=
  ("Conversation so far:\n").data ++ history_text ++
    ("\n\nUser: ").data ++ message ++
    ("\n\nContinue the conversation naturally. Ask ONE follow-up question to learn more about their preferences.").data

/-- Model of `get_meal_recommendation_prompt` (`agent_prompts.py` lines
38-68).  The `"preferences"` key checked on line 57 is never present in
contexts built by this code and is omitted. -/
def get_meal_recommendation_prompt (user_query : Str)
    (relevant_meals : List MealRes) (user_context : UserCtx) : Str :=
  let meals_text := List.intercalate (("\n\n").data)
    ((relevant_meals.take 5).map fun meal =>
      ("Meal: ").data ++ meal.metadata.name ++
      ("\nCategory: ").data ++ meal.metadata.category ++
      ("\nCalories: ").data ++ meal.metadata.calories ++
      ("\nProtein: ").data ++ meal.metadata.protein ++
      ("g\nTags: ").data ++ meal.metadata.dietary_tags ++
      ("\nDescription: ").data ++ meal.document.take 200 ++ ("...").data)
  let context_text :=
    (match user_context.dietary_restrictions with
     | some l => ("\nDietary Restrictions: ").data ++ joinComma l
     | none => []) ++
    (match user_context.calorie_target with
     | some n => ("\nCalorie Target: ").data ++ natToStr n
     | none => [])
  ("Customer Query: ").data ++ user_query ++ ("\n\n").data ++
    (if context_text.isEmpty then
      ("No specific dietary restrictions or preferences provided.").data
     else context_text) ++
    ("\n\nAvailable Meals:\n").data ++ meals_text ++
    ("\n\nTask: Recommend the BEST meals for this customer and explain why they\x27re good choices.\nFocus on their dietary needs, nutritional goals, and taste preferences.").data

/-- Model of `get_feedback_analysis_prompt` (`agent_prompts.py` lines
83-97). -/
def get_feedback_analysis_prompt (feedback : Str) : Str :=
  ("Analyze this customer feedback:\n\n\"").data ++ feedback ++
    ("\"\n\nProvide a JSON response with:\n\x7b\n  \"sentiment\": \"positive/neutral/negative\",\n  \"sentiment_score\": 0.0-1.0,\n  \"key_themes\": [\"theme1\", \"theme2\"],\n  \"actionable_insights\": [\"insight1\", \"insight2\"],\n  \"requires_attention\": true/false,\n  \"suggested_response\": \"optional response text\"\n\x7d").data

/-- Model of `get_kitchen_routing_prompt` (`agent_prompts.py` lines
112-128). -/
def get_kitchen_routing_prompt (message : Str) : Str :=
  ("Analyze this customer message:\n\n\"").data ++ message ++
    ("\"\n\nDetermine if this requires kitchen action. If yes, provide JSON:\n\x7b\n  \"requires_kitchen_action\": true/false,\n  \"request_type\": \"modification/allergy/portion/preparation/suggestion\",\n  \"details\": \x7b\n    \"meal_id\": \"if applicable\",\n    \"requested_changes\": \"description\",\n    \"priority\": 1-5\n  \x7d,\n  \"summary\": \"brief summary for kitchen team\"\n\x7d").data

/-- Model of `handle_preference_learning` (lines 76-112): render up to 5
trailing history messages, generate the reply (an exception here
propagates: the call is not wrapped), then extract preferences from the
raw user message and merge them into the user's context when any were
found.  Confidence fixed at 0.9. -/
def handle_preference_learning (o : Oracle) (st : AgentState)
    (message user_id : Str) (conversation_history : List Msg) :
    Except LlmErr HandlerResult × AgentState :=
  let history_text := joinNL ((lastN 5 conversation_history).map fun m =>
    m.role ++ ((": ").data) ++ m.content)
  let prompt := pref_learning_prompt history_text message
  match o.llm st.llmIdx prompt with
  | .error e => (.error e, bumpLlm st)
  | .ok response =>
    let preferences := extract_preferences_from_conversation message response
    let st2 :=
      if prefsNonempty preferences then
        { bumpLlm st with
          user_contexts := update_user_context user_id preferences st.user_contexts }
      else bumpLlm st
    (.ok { message := response, agent_used := ("PREFERENCE_LEARNER").data,
           confidence := 9/10, extracted_preferences := some preferences }, st2)

/-- The fixed clarifying reply of the empty-retrieval branch (lines
133-138). -/
def noMealsResult : HandlerResult :=
  { message := ("I couldn\x27t find any meals matching your criteria right now. Could you tell me more about what you\x27re looking for?").data
    agent_used := ("MEAL_RECOMMENDER").data
    confidence := 1/2
    recommendations := some [] }

/-- Model of `handle_meal_recommendation` (lines 115-158): fetch the
user context, retrieve candidates via `get_contextual_meals` (top 5);
on an empty retrieval return the fixed clarifying reply (confidence 0.5,
no recommendations, no completion call); otherwise generate the
narrative (an exception propagates: not wrapped) and return it with
confidence 0.95 and the first 3 candidate ids. -/
def handle_meal_recommendation (o : Oracle) (st : AgentState)
    (message user_id : Str) (conversation_history : List Msg) :
    Except LlmErr HandlerResult × AgentState :=
  let user_context := (tblGet user_id st.user_contexts).getD emptyCtx
  let pr := get_contextual_meals o message user_context 5
  if pr.1.isEmpty then
    (.ok noMealsResult, st)
  else
    let prompt := get_meal_recommendation_prompt message pr.1 user_context
    match o.llm st.llmIdx prompt with
    | .error e => (.error e, bumpLlm st)
    | .ok response =>
      (.ok { message := response, agent_used := ("MEAL_RECOMMENDER").data,
             confidence := 19/20,
             recommendations := some ((pr.1.take 3).map MealRes.id),
             context := some pr.2 }, bumpLlm st)

/-- The degraded feedback reply (lines 196-201). -/
def feedbackFallback : HandlerResult :=
  { message := ("Thank you for your feedback! We\x27ve recorded your comments and will review them shortly.").data
    agent_used := ("FEEDBACK_ANALYZER").data
    confidence := 7/10 }

/-- The customer-facing feedback reply (lines 184-187): empathetic
framing for negative sentiment, appreciative otherwise, including the
model's suggested response or a per-branch default. -/
def feedback_customer_response (analysis : Json) : Str :=
  if jsonGetStrEq analysis (("sentiment").data) (("negative").data) then
    ("Thank you for your feedback. ").data ++
      (match jsonGet analysis (("suggested_response").data) with
       | some v => pyStrOfJson v
       | none => ("We take your concerns seriously and will work to improve.").data)
  else
    ("Thank you for your feedback! ").data ++
      (match jsonGet analysis (("suggested_response").data) with
       | some v => pyStrOfJson v
       | none => ("We appreciate you taking the time to share your experience.").data)

/-- Model of `handle_feedback_analysis` (lines 161-201): one structured
completion (a completion call plus JSON recovery); every exception —
backend failure, JSON-recovery failure, or `.get` on a non-dict — is
caught and converted into the degraded reply with confidence 0.7. -/
def handle_feedback_analysis (o : Oracle) (st : AgentState)
    (message user_id : Str) : Except LlmErr HandlerResult × AgentState :=
  let prompt := get_feedback_analysis_prompt message
  match o.llm st.llmIdx prompt with
  | .error _ => (.ok feedbackFallback, bumpLlm st)
  | .ok raw =>
    match generate_structured_output_parse raw with
    | .error _ => (.ok feedbackFallback, bumpLlm st)
    | .ok analysis =>
      match analysis with
      | .obj fs =>
        (.ok { message := feedback_customer_response (.obj fs),
               agent_used := ("FEEDBACK_ANALYZER").data, confidence := 9/10,
               analysis := some (.obj fs) }, bumpLlm st)
      | _ => (.ok feedbackFallback, bumpLlm st)

/-- The degraded kitchen reply (lines 246-252), with
`requires_kitchen_action` forced true. -/
def kitchenFallback : HandlerResult :=
  { message := ("I\x27ve noted your request and will make sure the kitchen team reviews it!").data
    agent_used := ("KITCHEN_ROUTER").data
    confidence := 7/10
    requires_kitchen_action := some (.bool true) }

/-- Model of `handle_kitchen_routing` (lines 204-252): one structured
completion; on success reply according to the truthiness of
`requires_kitchen_action` (the generated request id is discarded — the
storage lines are commented out in the source); on any exception fall
back with `requires_kitchen_action` forced true. -/
def handle_kitchen_routing (o : Oracle) (st : AgentState)
    (message user_id : Str) : Except LlmErr HandlerResult × AgentState :=
  let prompt := get_kitchen_routing_prompt message
  match o.llm st.llmIdx prompt with
  | .error _ => (.ok kitchenFallback, bumpLlm st)
  | .ok raw =>
    match generate_structured_output_parse raw with
    | .error _ => (.ok kitchenFallback, bumpLlm st)
    | .ok routing_info =>
      match routing_info with
      | .obj fs =>
        let ri := Json.obj fs
        let response :=
          if jsonGetTruthy ri (("requires_kitchen_action").data) then
            ("I\x27ve forwarded your special request to our kitchen team. They\x27ll review it and get back to you within 24 hours!").data
          else
            ("I can help you with that! Let me know what you\x27d like to change about your meals.").data
        (.ok { message := response, agent_used := ("KITCHEN_ROUTER").data,
               confidence := 17/20,
               requires_kitchen_action :=
                 some ((jsonGet ri (("requires_kitchen_action").data)).getD (.bool false)),
               routing_info := some ri }, bumpLlm st)
      | _ => (.ok kitchenFallback, bumpLlm st)

/-- Model of `route_conversation` (lines 29-73) as run by the
orchestrator: build the routing prompt over the last-5 window and
classify the completion outcome (`routeDecision` swallows any
exception). -/
def route_conversation (o : Oracle) (st : AgentState) (message : Str)
    (conversation_history : List Msg) : Str × AgentState :=
  let prompt := get_routing_prompt message (lastN 5 conversation_history)
  (routeDecision (o.llm st.llmIdx prompt), bumpLlm st)

/-- Lines 275-276: create the conversation entry when absent. -/
def ensure_conversation (cid : Str) (st : AgentState) : AgentState :=
  match tblGet cid st.conversations with
  | some _ => st
  | none => { st with conversations := tblSet cid [] st.conversations }

/-- Lines 278-280 / 303-305: append one message to a conversation. -/
def append_message (cid : Str) (msg : Msg) (st : AgentState) : AgentState :=
  let conv := ((tblGet cid st.conversations).getD []) ++ [msg]
  { st with conversations := tblSet cid conv st.conversations }

/-- Lines 286-301: the `if`/`elif` dispatch on the routing decision,
with the preference learner as the defensive default. -/
def dispatch_agent (o : Oracle) (st : AgentState) (agent message user_id : Str)
    (conv : List Msg) : Except LlmErr HandlerResult × AgentState :=
  if agent = ("PREFERENCE_LEARNER").data then
    handle_preference_learning o st message user_id conv
  else if agent = ("MEAL_RECOMMENDER").data then
    handle_meal_recommendation o st message user_id conv
  else if agent = ("FEEDBACK_ANALYZER").data then
    handle_feedback_analysis o st message user_id
  else if agent = ("KITCHEN_ROUTER").data then
    handle_kitchen_routing o st message user_id
  else
    handle_preference_learning o st message user_id conv

/-- Model of `process_message` (lines 255-310): resolve or synthesize
the conversation id (`now` is the formatted timestamp), create the
conversation if absent, append the user message, route, dispatch to the
matching handler, append the assistant reply, and attach the
conversation id.  A handler exception propagates after the user message
was appended. -/
def process_message (o : Oracle) (st : AgentState) (message user_id : Str)
    (conversation_id : Option Str) (now : Str) :
    Except LlmErr HandlerResult × AgentState :=
  let cid := conversation_id.getD
    ((("conv_").data) ++ user_id ++ (("_").data) ++ now)
  let st2 := append_message cid ⟨("user").data, message⟩
    (ensure_conversation cid st)
  let conv1 := (tblGet cid st2.conversations).getD []
  let ra := route_conversation o st2 message conv1
  match dispatch_agent o ra.2 ra.1 message user_id conv1 with
  | (.error e, st4) => (.error e, st4)
  | (.ok result, st4) =>
    (.ok { result with conversation_id := some cid },
      append_message cid ⟨("assistant").data, result.message⟩ st4)

/-- Run a sequence of turns on one conversation id; `none` when some
turn raised. -/
def runTurns (o : Oracle) (st : AgentState) (cid : Str) :
    List (Str × Str) → Option AgentState
  | [] => some st
  | (m, u) :: rest =>
    match process_message o st m u (some cid) [] with
    | (.ok _, st') => runTurns o st' cid rest
    | (.error _, _) => none

/-- The expected conversation content: one user message then one
assistant reply per turn, in order. -/
def turnsConcat : List (Str × Str) → List Str → List Msg
  | (m, _) :: ins, r :: rs =>
    ⟨("user").data, m⟩ :: ⟨("assistant").data, r⟩ :: turnsConcat ins rs
  | _, _ => []

/-- C3. The meal recommender on an empty contextual retrieval returns
exactly the fixed clarifying reply with confidence 0.5 and an empty
recommendations list, leaving the state (in particular the
completion-call counter) untouched — no completion call; on a nonempty
retrieval whose narrative generation succeeds it returns that narrative
with confidence 0.95 and the ids of the first (at most) 3 retrieved
meals. -/
theorem meal_rec_spec (o : Oracle) (st : AgentState) (message user_id : Str)
    (hist : List Msg) :
    ((get_contextual_meals o message
        ((tblGet user_id st.user_contexts).getD emptyCtx) 5).1 = [] →
      handle_meal_recommendation o st message user_id hist =
        (.ok noMealsResult, st)) ∧
    (∀ meals context_explanation,
      get_contextual_meals o message
          ((tblGet user_id st.user_contexts).getD emptyCtx) 5 =
        (meals, context_explanation) →
      meals ≠ [] →
      ∀ r, o.llm st.llmIdx
          (get_meal_recommendation_prompt message meals
            ((tblGet user_id st.user_contexts).getD emptyCtx)) = .ok r →
        handle_meal_recommendation o st message user_id hist =
          (.ok { message := r, agent_used := ("MEAL_RECOMMENDER").data,
                 confidence := 19/20,
                 recommendations := some ((meals.take 3).map MealRes.id),
                 context := some context_explanation }, bumpLlm st)) := by
  constructor
  · intro h
    simp [handle_meal_recommendation, h]
  · intro meals context_explanation hpr hne r hr
    simp [handle_meal_recommendation, hpr, hne, hr]

/-- A backend oracle whose completion stream always answers with the
empty string and whose index always returns no hits. -/
def oEmpty : Oracle := ⟨fun _ _ => .ok [], fun _ _ _ => []⟩

/-- The initial process state: no conversations, no contexts, no calls
made. -/
def stEmpty : AgentState := ⟨[], [], 0⟩

/-- C3 non-vacuity: against an index with no hits, the handler returns
the fixed clarifying reply and makes no completion call. -/
theorem meal_rec_spec_witness :
    handle_meal_recommendation oEmpty stEmpty (("hi").data) (("u").data) [] =
      (.ok noMealsResult, stEmpty) :=
  (meal_rec_spec oEmpty stEmpty (("hi").data) (("u").data) []).1 rfl

/-- C10. A preference-learning turn whose message contains none of the
dietary keyword substrings and not "calorie" leaves the user-context
table unchanged for every user, whatever the completion outcome. -/
theorem pref_learning_frame (o : Oracle) (st : AgentState)
    (message user_id : Str) (hist : List Msg)
    (h1 : ¬ ("vegetarian").data <:+: lowerStr message)
    (h2 : ¬ ("vegan").data <:+: lowerStr message)
    (h3 : ¬ ("keto").data <:+: lowerStr message)
    (h4 : ¬ ("gluten free").data <:+: lowerStr message)
    (h5 : ¬ ("gluten-free").data <:+: lowerStr message)
    (h6 : ¬ ("dairy free").data <:+: lowerStr message)
    (h7 : ¬ ("dairy-free").data <:+: lowerStr message)
    (h8 : ¬ ("halal").data <:+: lowerStr message)
    (h9 : ¬ ("calorie").data <:+: lowerStr message) :
    ((handle_preference_learning o st message user_id hist).2).user_contexts =
      st.user_contexts := by
  have hext : ∀ resp,
      extract_preferences_from_conversation message resp =
        ⟨[], none⟩ := by
    intro resp
    simp [extract_preferences_from_conversation, dietaryTags, pyIn,
      h1, h2, h3, h4, h5, h6, h7, h8, h9]
  simp only [handle_preference_learning]
  rcases hllm : o.llm st.llmIdx (pref_learning_prompt
      (joinNL ((lastN 5 hist).map fun m => m.role ++ ((": ").data) ++ m.content))
      message) with e | resp
  · rw [hllm]
    rfl
  · rw [hllm]
    simp [hext resp, prefsNonempty, bumpLlm]

/-- C10 non-vacuity: a keyword-free message leaves an empty context
table empty. -/
theorem pref_learning_frame_witness :
    ((handle_preference_learning oEmpty stEmpty (("hello").data) (("u").data)
        []).2).user_contexts = [] :=
  pref_learning_frame oEmpty stEmpty (("hello").data) (("u").data) []
    (by decide) (by decide) (by decide) (by decide) (by decide) (by decide)
    (by decide) (by decide) (by decide)

/-- Routing never touches the conversation table. -/
theorem route_preserves_conversations (o : Oracle) (st : AgentState)
    (m : Str) (hist : List Msg) :
    ((route_conversation o st m hist).2).conversations = st.conversations := rfl

/-- The preference learner never touches the conversation table. -/
theorem hpl_preserves_conversations (o : Oracle) (st : AgentState)
    (m u : Str) (hist : List Msg) :
    ((handle_preference_learning o st m u hist).2).conversations =
      st.conversations := by
  simp only [handle_preference_learning]
  split
  · rfl
  · split <;> rfl

/-- The meal recommender never touches the conversation table. -/
theorem hmr_preserves_conversations (o : Oracle) (st : AgentState)
    (m u : Str) (hist : List Msg) :
    ((handle_meal_recommendation o st m u hist).2).conversations =
      st.conversations := by
  simp only [handle_meal_recommendation]
  split
  · rfl
  · split <;> rfl

/-- The feedback analyzer never touches the conversation table. -/
theorem hfa_preserves_conversations (o : Oracle) (st : AgentState)
    (m u : Str) :
    ((handle_feedback_analysis o st m u).2).conversations =
      st.conversations := by
  simp only [handle_feedback_analysis]
  split
  · rfl
  · split
    · rfl
    · split <;> rfl

/-- The kitchen router never touches the conversation table. -/
theorem hkr_preserves_conversations (o : Oracle) (st : AgentState)
    (m u : Str) :
    ((handle_kitchen_routing o st m u).2).conversations =
      st.conversations := by
  simp only [handle_kitchen_routing]
  split
  · rfl
  · split
    · rfl
    · split <;> rfl

/-- No handler touches the conversation table. -/
theorem dispatch_preserves_conversations (o : Oracle) (st : AgentState)
    (a m u : Str) (conv : List Msg) :
    ((dispatch_agent o st a m u conv).2).conversations = st.conversations := by
  simp only [dispatch_agent]
  split
  · exact hpl_preserves_conversations o st m u conv
  · split
    · exact hmr_preserves_conversations o st m u conv
    · split
      · exact hfa_preserves_conversations o st m u
      · split
        · exact hkr_preserves_conversations o st m u
        · exact hpl_preserves_conversations o st m u conv

/-- Creating a conversation entry if absent does not change its
(defaulted) content. -/
theorem ensure_conversation_get (cid : Str) (st : AgentState) :
    (tblGet cid (ensure_conversation cid st).conversations).getD [] =
      (tblGet cid st.conversations).getD [] := by
  simp only [ensure_conversation]
  rcases h : tblGet cid st.conversations with _ | c
  · simp [tblGet_tblSet_self]
  · simp [h]

/-- Appending to a conversation appends to its content. -/
theorem append_message_get (cid : Str) (msg : Msg) (st : AgentState) :
    (tblGet cid (append_message cid msg st).conversations).getD [] =
      (tblGet cid st.conversations).getD [] ++ [msg] := by
  simp [append_message, tblGet_tblSet_self]

/-- One successful `process_message` turn appends exactly the user
message and the assistant reply to the conversation. -/
theorem process_message_ok_conv (o : Oracle) (st : AgentState)
    (m u cid now : Str) (r : HandlerResult) (st' : AgentState)
    (h : process_message o st m u (some cid) now = (.ok r, st')) :
    (tblGet cid st'.conversations).getD [] =
      (tblGet cid st.conversations).getD [] ++
        [⟨("user").data, m⟩, ⟨("assistant").data, r.message⟩] := by
  simp only [process_message, Option.getD_some] at h
  split at h
  · simp at h
  · rename_i result st4 heq
    have hr' : r = { result with conversation_id := some cid } :=
      (Except.ok.inj (congrArg Prod.fst h)).symm
    have hst' : st' =
        append_message cid ⟨("assistant").data, result.message⟩ st4 :=
      (congrArg Prod.snd h).symm
    have h4 : st4.conversations =
        (append_message cid ⟨("user").data, m⟩
          (ensure_conversation cid st)).conversations := by
      have hd := congrArg
        (fun p : Except LlmErr HandlerResult × AgentState =>
          p.2.conversations) heq
      simp only [dispatch_preserves_conversations,
        route_preserves_conversations] at hd
      exact hd.symm
    rw [hst', hr', append_message_get, h4, append_message_get,
      ensure_conversation_get]
    simp

/-- Length of the interleaved turn rendering. -/
theorem turnsConcat_length :
    ∀ (ins : List (Str × Str)) (rs : List Str), rs.length = ins.length →
      (turnsConcat ins rs).length = 2 * ins.length := by
  intro ins
  induction ins with
  | nil =>
    intro rs h
    cases rs with
    | nil => rfl
    | cons r rs => simp at h
  | cons p ins ih =>
    intro rs h
    cases rs with
    | nil => simp at h
    | cons r rs =>
      rcases p with ⟨m, u⟩
      simp only [turnsConcat, List.length_cons]
      rw [ih rs (by simpa using h)]
      omega

/-- A successful run of turns appends one user message and one
assistant reply per turn, in order. -/
theorem runTurns_shape (o : Oracle) (cid : Str) :
    ∀ (inputs : List (Str × Str)) (st st' : AgentState),
      runTurns o st cid inputs = some st' →
      ∃ replies : List Str, replies.length = inputs.length ∧
        (tblGet cid st'.conversations).getD [] =
          (tblGet cid st.conversations).getD [] ++ turnsConcat inputs replies := by
  intro inputs
  induction inputs with
  | nil =>
    intro st st' h
    simp only [runTurns, Option.some.injEq] at h
    subst h
    exact ⟨[], rfl, by simp [turnsConcat]⟩
  | cons p rest ih =>
    intro st st' h
    rcases p with ⟨m, u⟩
    simp only [runTurns] at h
    rcases hpm : process_message o st m u (some cid) [] with ⟨res, st1⟩
    rw [hpm] at h
    cases res with
    | error e => simp at h
    | ok r =>
      simp only at h
      obtain ⟨replies, hlen, hconv⟩ := ih st1 st' h
      refine ⟨r.message :: replies, by simp [hlen], ?_⟩
      rw [hconv, process_message_ok_conv o st m u cid [] r st1 hpm,
        turnsConcat]
      simp

/-- C5. Starting from an absent or empty conversation, after N
successful `process_message` turns the conversation holds exactly 2N
messages: one user message followed by one assistant message per turn,
in chronological (append) order. -/
theorem conversation_two_per_turn (o : Oracle) (st : AgentState) (cid : Str)
    (inputs : List (Str × Str)) (st' : AgentState)
    (hstart : (tblGet cid st.conversations).getD [] = [])
    (hrun : runTurns o st cid inputs = some st') :
    ∃ replies : List Str, replies.length = inputs.length ∧
      (tblGet cid st'.conversations).getD [] = turnsConcat inputs replies ∧
      ((tblGet cid st'.conversations).getD []).length = 2 * inputs.length := by
  obtain ⟨replies, hlen, hconv⟩ := runTurns_shape o cid inputs st st' hrun
  rw [hstart, List.nil_append] at hconv
  exact ⟨replies, hlen, hconv,
    by rw [hconv]; exact turnsConcat_length inputs replies hlen⟩

/-- The two-turn input sequence used to witness C5. -/
def wInputs : List (Str × Str) := [((("hi").data), (("u").data)), ((("yo").data), (("u").data))]

/-- The state after running the witness turns against the trivial
oracle. -/
def wSt : AgentState := (runTurns oEmpty stEmpty (("c").data) wInputs).getD stEmpty

/-- C5 non-vacuity: two successful turns yield a 4-message conversation
of alternating user/assistant messages. -/
theorem conversation_two_per_turn_witness :
    ∃ replies : List Str, replies.length = wInputs.length ∧
      (tblGet (("c").data) wSt.conversations).getD [] =
        turnsConcat wInputs replies ∧
      ((tblGet (("c").data) wSt.conversations).getD []).length =
        2 * wInputs.length :=
  conversation_two_per_turn oEmpty stEmpty (("c").data) wInputs wSt rfl rfl

end Calo
